import Mathlib

/-!
Shallow embedding of the soql-parser-js core: the chevrotain CST visitor
(`SOQLVisitor`, source file `src/unnamed/part_000`) and the older ANTLR
facade (`src/src/app/SoqlParser.ts`).  CST contexts are modelled as Lean
structures whose `Option` fields mirror the optional keys chevrotain puts on
a context object; the visitor methods become total functions on those
structures.  JS dynamic values that matter to the claims (string truthiness,
`Number(...)`, `x || null`) are modelled explicitly.
-/

namespace Soql

/-- A chevrotain token: its matched text (`image`) and its token type name. -/
structure Token where
  image : String
  tokenTypeName : String
deriving Repr, DecidableEq

/-- The `LiteralType` enumeration of `api-models`.  Constructor
`INTEGER_CURRENCY` models the source string `INTEGER_WITH_CURRENCY_PREFIX`
and `DECIMAL_CURRENCY` models `DECIMAL_WITH_CURRENCY_PREFIX`. -/
inductive LiteralType where
  | STRING
  | INTEGER
  | DECIMAL
  | INTEGER_CURRENCY
  | DECIMAL_CURRENCY
  | BOOLEAN
  | DATE
  | DATETIME
  | NULL
  | DATE_LITERAL
  | DATE_N_LITERAL
  | APEX_BIND_VARIABLE
deriving Repr, DecidableEq

/-- `LiteralTypeWithSubquery` as a condition's `literalType` value: a scalar
tag, the `SUBQUERY` marker, or a per-element sequence (array literals). -/
inductive LiteralTypeValue where
  | scalar (t : LiteralType)
  | subquery
  | seq (ts : List LiteralType)
deriving Repr, DecidableEq

/-- A condition's `value`: a string, an array of strings, or (for the
`SUBQUERY` case) the nested query, kept abstract as a marker here. -/
inductive JsValue where
  | str (s : String)
  | strs (l : List String)
  | subq
deriving Repr, DecidableEq

/-- A condition's `dateLiteralVariable`: a number, or (arrays) a list of
number-or-null entries. -/
inductive DateVar where
  | num (n : Nat)
  | arr (l : List (Option Nat))
deriving Repr, DecidableEq

/-- JS truthiness of a `dateLiteralVariable` value: `undefined` and `0` are
falsy; any array (even empty) is truthy. -/
def truthyDateVar : Option DateVar → Bool
  | none => false
  | some (.num n) => n != 0
  | some (.arr _) => true

/-- Splitting a char list on a separator, JS `String.prototype.split`
semantics on a one-char separator: `"a.b"` gives `["a","b"]`, `""` gives
`[""]`. -/
def splitCharAux (sep : Char) : List Char → List Char → List (List Char)
  | [], acc => [acc.reverse]
  | c :: cs, acc =>
      if c = sep then acc.reverse :: splitCharAux sep cs []
      else splitCharAux sep cs (c :: acc)

/-- JS `s.split(sep)` for a one-character separator. -/
def jsSplit (s : String) (sep : Char) : List String :=
  (splitCharAux sep s.data []).map String.mk

/-- JS `s.includes(c)` for a one-character needle. -/
def jsIncludes (s : String) (c : Char) : Bool :=
  s.data.contains c

/-- Decimal digits to a number; `none` when a non-digit appears. -/
def decDigitsAux : List Char → Nat → Option Nat
  | [], acc => some acc
  | c :: cs, acc =>
      if c.isDigit then decDigitsAux cs (acc * 10 + (c.toNat - 48)) else none

/-- `Number(s)` on the unsigned-integer images the lexer feeds the visitor
(`decDigitsAux` succeeds on exactly those). -/
def jsNumber (s : String) : Nat := (decDigitsAux s.data 0).getD 0

/-- The character `.` of the dotted paths. -/
def dotChar : Char := Char.ofNat 46

/-- `BOOLEANS` constant of the visitor module. -/
def BOOLEANS : List String := ["TRUE", "FALSE"]

/-- `DATE_LITERALS` constant of the visitor module. -/
def DATE_LITERALS : List String :=
  ["YESTERDAY", "TODAY", "TOMORROW", "LAST_WEEK", "THIS_WEEK", "NEXT_WEEK",
   "LAST_MONTH", "THIS_MONTH", "NEXT_MONTH", "LAST_90_DAYS", "NEXT_90_DAYS",
   "THIS_QUARTER", "LAST_QUARTER", "NEXT_QUARTER", "THIS_YEAR", "LAST_YEAR",
   "NEXT_YEAR", "THIS_FISCAL_QUARTER", "LAST_FISCAL_QUARTER",
   "NEXT_FISCAL_QUARTER", "THIS_FISCAL_YEAR", "LAST_FISCAL_YEAR",
   "NEXT_FISCAL_YEAR"]

/-- `DATE_N_LITERALS` constant of the visitor module. -/
def DATE_N_LITERALS : List String :=
  ["NEXT_N_DAYS", "LAST_N_DAYS", "N_DAYS_AGO", "NEXT_N_WEEKS", "LAST_N_WEEKS",
   "N_WEEKS_AGO", "NEXT_N_MONTHS", "LAST_N_MONTHS", "N_MONTHS_AGO",
   "NEXT_N_QUARTERS", "LAST_N_QUARTERS", "N_QUARTERS_AGO", "NEXT_N_YEARS",
   "LAST_N_YEARS", "N_YEARS_AGO", "NEXT_N_FISCAL_QUARTERS",
   "LAST_N_FISCAL_QUARTERS", "N_FISCAL_QUARTERS_AGO", "NEXT_N_FISCAL_YEARS",
   "LAST_N_FISCAL_YEARS", "N_FISCAL_YEARS_AGO"]

/-- `SOQLVisitor.$_getLiteralTypeFromTokenType`. -/
def getLiteralTypeFromTokenType (tokenTypeName : String) : LiteralType :=
  if tokenTypeName = "REAL_NUMBER" then .DECIMAL
  else if tokenTypeName = "CURRENCY_PREFIXED_DECIMAL" then .DECIMAL_CURRENCY
  else if tokenTypeName = "CURRENCY_PREFIXED_INTEGER" then .INTEGER_CURRENCY
  else if tokenTypeName = "SIGNED_DECIMAL" then .DECIMAL
  else if tokenTypeName = "UNSIGNED_DECIMAL" then .DECIMAL
  else if tokenTypeName = "UNSIGNED_INTEGER" then .INTEGER
  else if tokenTypeName = "SIGNED_INTEGER" then .INTEGER
  else if tokenTypeName = "DATETIME" then .DATETIME
  else if tokenTypeName = "DATE" then .DATE
  else if tokenTypeName = "NULL" then .NULL
  else if tokenTypeName = "StringIdentifier" then .STRING
  else if tokenTypeName = "Identifier" then .STRING
  else if BOOLEANS.contains tokenTypeName then .BOOLEAN
  else if DATE_LITERALS.contains tokenTypeName then .DATE_LITERAL
  else if DATE_N_LITERALS.contains tokenTypeName then .DATE_N_LITERAL
  else .STRING

/-- `DateNLiteralContext`: the date-N keyword token and its `:N` variable
token. -/
structure DateNLiteralContext where
  dateNLiteralTok : Token
  variableTok : Token
deriving Repr, DecidableEq

/-- Result of `SOQLVisitor.dateNLiteral` (field `variableN` models the source
key `variable`, a Lean keyword). -/
structure DateNResult where
  value : String
  variableN : Nat
  type : Option String
deriving Repr, DecidableEq

/-- `SOQLVisitor.dateNLiteral`. -/
def dateNLiteral (ctx : DateNLiteralContext) (includeType : Bool) : DateNResult :=
  { value := ctx.dateNLiteralTok.image ++ ":" ++ ctx.variableTok.image
    variableN := jsNumber ctx.variableTok.image
    type := if includeType then some ctx.dateNLiteralTok.tokenTypeName else none }

/-- An element of an `arrayExpression` CST: a plain token or a nested
`dateNLiteral` context. -/
inductive ArrayElem where
  | token (t : Token)
  | dateN (c : DateNLiteralContext)
deriving Repr, DecidableEq

/-- `ArrayExpressionWithType` of the models module (field `variableN` models
the source key `variable`). -/
structure ArrayExpressionWithType where
  type : String
  value : String
  variableN : Option Nat
deriving Repr, DecidableEq

/-- `SOQLVisitor.arrayExpression`: tokens keep their token type and image,
nested date-N literals are visited with `includeType = true`. -/
def arrayExpression (items : List ArrayElem) : List ArrayExpressionWithType :=
  items.map fun it =>
    match it with
    | .token t => { type := t.tokenTypeName, value := t.image, variableN := none }
    | .dateN c =>
        let d := dateNLiteral c true
        { type := (d.type).getD "", value := d.value, variableN := some d.variableN }

/-- `AtomicExpressionContext`: each field is the optional CST key the
if/else chain of `SOQLVisitor.atomicExpression` probes, in source order.
`dateTok` models the `date` alternative (whose value token is `DateToken`);
`whereClauseSubquery` models `whereClauseSubqueryIdentifier`, with the
nested query kept abstract. -/
structure AtomicExpressionContext where
  apexBindVariableExpression : Option String := none
  NumberIdentifier : Option Token := none
  UnsignedInteger : Option Token := none
  SignedInteger : Option Token := none
  RealNumber : Option Token := none
  DateIdentifier : Option Token := none
  CurrencyPrefixedInteger : Option Token := none
  CurrencyPrefixedDecimal : Option Token := none
  DateTime : Option Token := none
  dateTok : Option Token := none
  NULL : Option Token := none
  StringIdentifier : Option Token := none
  Identifier : Option Token := none
  booleanValue : Option String := none
  DateLiteral : Option Token := none
  dateNLiteralCtx : Option DateNLiteralContext := none
  arrayExpressionCtx : Option (List ArrayElem) := none
  whereClauseSubquery : Option Unit := none
deriving Repr, DecidableEq

/-- What `atomicExpression` returns when `returnLiteralType` is set (the
only way the claims' callers invoke it). -/
structure AtomicResult where
  value : Option JsValue := none
  literalType : Option LiteralTypeValue := none
  dateLiteralVariable : Option DateVar := none
deriving Repr, DecidableEq

/-- The per-element `item.variable || null` step of the array branch of
`atomicExpression`: JS `0` is falsy, so a date-N element with variable 0
contributes `null`. -/
def dateVarSlot (x : ArrayExpressionWithType) : Option Nat :=
  match x.variableN with
  | some n => if n = 0 then none else some n
  | none => none

/-- `SOQLVisitor.atomicExpression` with `returnLiteralType = true`: the
source's if/else chain over the context's optional keys.  In the array
branch the source's final `literalType = literalType || 'STRING'` is a
no-op (the branch always assigns, and arrays and non-empty strings are
truthy), so it is not repeated here. -/
def atomicExpression (ctx : AtomicExpressionContext) : AtomicResult :=
  match ctx.apexBindVariableExpression with
  | some ident => { value := some (.str ident), literalType := some (.scalar .APEX_BIND_VARIABLE) }
  | none =>
  match ctx.NumberIdentifier with
  | some t => { value := some (.str t.image),
                literalType := some (.scalar (getLiteralTypeFromTokenType t.tokenTypeName)) }
  | none =>
  match ctx.UnsignedInteger with
  | some t => { value := some (.str t.image), literalType := some (.scalar .INTEGER) }
  | none =>
  match ctx.SignedInteger with
  | some t => { value := some (.str t.image), literalType := some (.scalar .INTEGER) }
  | none =>
  match ctx.RealNumber with
  | some t => { value := some (.str t.image), literalType := some (.scalar .DECIMAL) }
  | none =>
  match ctx.DateIdentifier with
  | some t => { value := some (.str t.image),
                literalType := some (.scalar (getLiteralTypeFromTokenType t.tokenTypeName)) }
  | none =>
  match ctx.CurrencyPrefixedInteger with
  | some t => { value := some (.str t.image), literalType := some (.scalar .INTEGER_CURRENCY) }
  | none =>
  match ctx.CurrencyPrefixedDecimal with
  | some t => { value := some (.str t.image), literalType := some (.scalar .DECIMAL_CURRENCY) }
  | none =>
  match ctx.DateTime with
  | some t => { value := some (.str t.image), literalType := some (.scalar .DATETIME) }
  | none =>
  match ctx.dateTok with
  | some t => { value := some (.str t.image), literalType := some (.scalar .DATE) }
  | none =>
  match ctx.NULL with
  | some _ => { value := some (.str "NULL"), literalType := some (.scalar .NULL) }
  | none =>
  match ctx.StringIdentifier with
  | some t => { value := some (.str t.image), literalType := some (.scalar .STRING) }
  | none =>
  match ctx.Identifier with
  | some t => { value := some (.str t.image), literalType := some (.scalar .STRING) }
  | none =>
  match ctx.booleanValue with
  | some b => { value := some (.str b), literalType := some (.scalar .BOOLEAN) }
  | none =>
  match ctx.DateLiteral with
  | some t => { value := some (.str t.image), literalType := some (.scalar .DATE_LITERAL) }
  | none =>
  match ctx.dateNLiteralCtx with
  | some c =>
      let d := dateNLiteral c false
      { value := some (.str d.value)
        literalType := some (.scalar .DATE_N_LITERAL)
        dateLiteralVariable := some (.num d.variableN) }
  | none =>
  match ctx.arrayExpressionCtx with
  | some items =>
      let arrayValues := arrayExpression items
      let dateLiteralTemp := arrayValues.map dateVarSlot
      let hasDateLiterals := dateLiteralTemp.any (·.isSome)
      let lt : LiteralTypeValue :=
        match arrayValues with
        | v :: rest =>
            if rest.all (fun w => w.type == v.type) then
              .scalar (getLiteralTypeFromTokenType v.type)
            else
              .seq ((v :: rest).map (fun i => getLiteralTypeFromTokenType i.type))
        | [] => .seq []
      { value := some (.strs (arrayValues.map (·.value)))
        literalType := some lt
        dateLiteralVariable := if hasDateLiterals then some (.arr dateLiteralTemp) else none }
  | none =>
  match ctx.whereClauseSubquery with
  | some _ => { value := some .subq, literalType := some .subquery }
  | none => { }

/-- Grammar-accepted atomic contexts carry exactly one alternative; this is
the weaker fact the totality claim needs: at least one key is present. -/
def hasAlternative (ctx : AtomicExpressionContext) : Bool :=
  ctx.apexBindVariableExpression.isSome || ctx.NumberIdentifier.isSome ||
  ctx.UnsignedInteger.isSome || ctx.SignedInteger.isSome ||
  ctx.RealNumber.isSome || ctx.DateIdentifier.isSome ||
  ctx.CurrencyPrefixedInteger.isSome || ctx.CurrencyPrefixedDecimal.isSome ||
  ctx.DateTime.isSome || ctx.dateTok.isSome || ctx.NULL.isSome ||
  ctx.StringIdentifier.isSome || ctx.Identifier.isSome ||
  ctx.booleanValue.isSome || ctx.DateLiteral.isSome ||
  ctx.dateNLiteralCtx.isSome || ctx.arrayExpressionCtx.isSome ||
  ctx.whereClauseSubquery.isSome

/-! ## Functions: DISTANCE / GEOLOCATION -/

/-- `GeoLocationFunctionContext`: latitude and longitude token images. -/
structure GeoLocationFunctionContext where
  latitude : String
  longitude : String
deriving Repr, DecidableEq

/-- `LocationFunctionContext`: `location1` and `unit` token images; the
second argument is either a field token or a nested GEOLOCATION context. -/
structure LocationFunctionContext where
  location1 : String
  location2 : Sum String GeoLocationFunctionContext
  unit : String
deriving Repr, DecidableEq

/-- Output of `SOQLVisitor.geolocationFunction`. -/
structure GeoFn where
  type : Option String := none
  functionName : String
  parameters : List String
  rawValue : String
deriving Repr, DecidableEq

/-- A `DISTANCE` parameter: an argument string or the nested GEOLOCATION
expression. -/
inductive FnParam where
  | str (s : String)
  | geo (g : GeoFn)
deriving Repr, DecidableEq

/-- Output of `SOQLVisitor.locationFunction`. -/
structure LocFn where
  type : Option String := none
  functionName : String
  parameters : List FnParam
  isAggregateFn : Option Bool := none
  rawValue : String
deriving Repr, DecidableEq

/-- `SOQLVisitor.geolocationFunction`. -/
def geolocationFunction (ctx : GeoLocationFunctionContext) (includeType : Bool) : GeoFn :=
  { type := if includeType then some "FieldFunctionExpression" else none
    functionName := "GEOLOCATION"
    parameters := [ctx.latitude, ctx.longitude]
    rawValue := "GEOLOCATION(" ++ ctx.latitude ++ ", " ++ ctx.longitude ++ ")" }

/-- The second `DISTANCE` parameter: `isToken(ctx.location2)` keeps the
image, otherwise the nested GEOLOCATION is visited with the same options. -/
def locationParam2 (ctx : LocationFunctionContext) (includeType : Bool) : FnParam :=
  match ctx.location2 with
  | .inl tok => .str tok
  | .inr g => .geo (geolocationFunction g includeType)

/-- `rawValue` part for a parameter: the string itself, or the nested
expression's `rawValue` (the source's `isString(...)` test). -/
def fnParamRaw : FnParam → String
  | .str s => s
  | .geo g => g.rawValue

/-- `SOQLVisitor.locationFunction`: `type` and `isAggregateFn` are attached
only when `options.includeType` is set. -/
def locationFunction (ctx : LocationFunctionContext) (includeType : Bool) : LocFn :=
  let p2 := locationParam2 ctx includeType
  { type := if includeType then some "FieldFunctionExpression" else none
    functionName := "DISTANCE"
    parameters := [.str ctx.location1, p2, .str ctx.unit]
    isAggregateFn := if includeType then some true else none
    rawValue := "DISTANCE(" ++ ctx.location1 ++ ", " ++ fnParamRaw p2 ++ ", " ++ ctx.unit ++ ")" }

/-! ## Conditions and WHERE/HAVING chains -/

/-- The result spread out of `expressionWithRelationalOperator` /
`expressionWithSetOperator`: the operator together with the visited
right-hand side. -/
structure OperatorResult where
  operator : String
  value : Option JsValue
  literalType : Option LiteralTypeValue
  dateLiteralVariable : Option DateVar
deriving Repr, DecidableEq

/-- `ExpressionOperatorContext`: the relational/set operator (as the string
the sub-visitors return) and the right-hand-side atomic context. -/
structure ExpressionOperatorContext where
  operator : String
  rhs : AtomicExpressionContext
deriving Repr, DecidableEq

/-- `expressionWithRelationalOperator` / `expressionWithSetOperator`:
spread the visited right-hand side next to the operator. -/
def expressionWithOperator (ctx : ExpressionOperatorContext) : OperatorResult :=
  let r := atomicExpression ctx.rhs
  { operator := ctx.operator
    value := r.value
    literalType := r.literalType
    dateLiteralVariable := r.dateLiteralVariable }

/-- The left-hand side of a condition: a field token, or a DISTANCE
invocation (the lhs shapes the claims exercise). -/
inductive LhsCtx where
  | token (image : String)
  | loc (c : LocationFunctionContext)
deriving Repr, DecidableEq

/-- `ExpressionContext`: `lParen`/`rParen` are `some n` when the CST carries
`n` `L_PAREN`/`R_PAREN` tokens and `none` when the key is absent. -/
structure ExpressionContext where
  logicalPrefix : Option String := none
  lhs : LhsCtx
  operatorCtx : ExpressionOperatorContext
  lParen : Option Nat := none
  rParen : Option Nat := none
deriving Repr, DecidableEq

/-- A `Condition` node as `SOQLVisitor.expression` builds it. -/
structure Condition where
  field : Option String := none
  fn : Option LocFn := none
  logicalPrefix : Option String := none
  operator : Option String := none
  value : Option JsValue := none
  valueQuery : Option Unit := none
  literalType : Option LiteralTypeValue := none
  dateLiteralVariable : Option DateVar := none
  openParen : Option Nat := none
  closeParen : Option Nat := none
deriving Repr, DecidableEq

/-- `SOQLVisitor.expression`: each conditional assignment of the source
becomes the corresponding field value (the assignments touch disjoint
keys, so the object literal below is the same output).  The guard on
`dateLiteralVariable` is JS truthiness: `0` is dropped. -/
def expression (ctx : ExpressionContext) : Condition :=
  let r := expressionWithOperator ctx.operatorCtx
  { logicalPrefix := ctx.logicalPrefix
    field := match ctx.lhs with | .token img => some img | .loc _ => none
    fn := match ctx.lhs with | .token _ => none | .loc c => some (locationFunction c false)
    operator := some r.operator
    valueQuery := if r.literalType = some .subquery then some () else none
    value := if r.literalType = some .subquery then none else r.value
    literalType := if r.literalType = some .subquery then none else r.literalType
    dateLiteralVariable := if truthyDateVar r.dateLiteralVariable then r.dateLiteralVariable else none
    openParen := ctx.lParen
    closeParen := ctx.rParen }

/-- `ConditionExpressionContext`: the optional logical connective token type
name and the inner expression. -/
structure ConditionExpressionContext where
  logicalOperator : Option String := none
  expr : ExpressionContext
deriving Repr, DecidableEq

/-- The left-linked chain `whereClause`/`havingClause` fold their
condition-expression list into: each node holds the visited condition, the
connective stored on it by the NEXT `conditionExpression` visit, and the
rest of the chain. -/
inductive WhereChain where
  | last (left : Condition)
  | cons (left : Condition) (op : Option String) (rest : WhereChain)
deriving Repr, DecidableEq

/-- The reduce of `SOQLVisitor.whereClause`: the first context roots the
tree; each later context is attached as `right` of the previous node and
writes its `logicalOperator` onto that previous node. -/
def buildChain : ConditionExpressionContext → List ConditionExpressionContext → WhereChain
  | c, [] => .last (expression c.expr)
  | c, c2 :: rest => .cons (expression c.expr) c2.logicalOperator (buildChain c2 rest)

/-- `SOQLVisitor.whereClause` (`undefined` on an empty context list, which
the grammar rules out). -/
def whereClause : List ConditionExpressionContext → Option WhereChain
  | [] => none
  | c :: rest => some (buildChain c rest)

/-- `SOQLVisitor.havingClause`: the same reduce as `whereClause`. -/
def havingClause : List ConditionExpressionContext → Option WhereChain :=
  whereClause

/-- Sum of `openParen` over the chain (absent counts as zero). -/
def WhereChain.sumOpen : WhereChain → Nat
  | .last c => c.openParen.getD 0
  | .cons c _ rest => c.openParen.getD 0 + rest.sumOpen

/-- Sum of `closeParen` over the chain (absent counts as zero). -/
def WhereChain.sumClose : WhereChain → Nat
  | .last c => c.closeParen.getD 0
  | .cons c _ rest => c.closeParen.getD 0 + rest.sumClose

/-- Modelled from the spec: the grammar module (`./parser`, not among the
repository's files) accepts a WHERE/HAVING clause only when the parenthesis
tokens balance — "the total opens must equal total closes in a well-formed
input". -/
def grammarBalanced (l : List ConditionExpressionContext) : Bool :=
  (l.map (fun c => c.expr.lParen.getD 0)).sum == (l.map (fun c => c.expr.rParen.getD 0)).sum

/-! ## Projection fields, FROM clause, selectStatement -/

/-- A projected field as the visitor builds it: the runtime `type` string
tag plus the optional keys the source reads and writes.  Nodes of the other
variants (function expressions, subqueries, TYPEOF) carry no
`relationships` key and pass through the alias pass untouched, so this one
record covers every projected field for the alias-resolution claims. -/
structure FieldNode where
  type : String
  field : Option String := none
  relationships : Option (List String) := none
  objectPrefix : Option String := none
  aliasV : Option String := none
  rawValue : Option String := none
deriving Repr, DecidableEq

/-- The token case of `SOQLVisitor.selectClause` (and of
`selectClauseIdentifier`): split a dotted image into `relationships` and
`field`. -/
def selectClauseField (image : String) : FieldNode :=
  if jsIncludes image dotChar then
    let splitFields := jsSplit image dotChar
    { type := "FieldRelationship"
      field := some (splitFields.getLastD "")
      relationships := some splitFields.dropLast
      rawValue := some image }
  else
    { type := "Field", field := some image }

/-- `FromClauseContext`: the `Identifier` token image and the optional alias
token image. -/
structure FromClauseContext where
  identifierImage : String
  aliasImage : Option String := none
deriving Repr, DecidableEq

/-- What `SOQLVisitor.fromClause` returns. -/
structure FromResult where
  sObject : String
  sObjectPrefix : Option (List String) := none
  aliasV : Option String := none
deriving Repr, DecidableEq

/-- `SOQLVisitor.fromClause`: a dotted FROM target is split; the last
segment is `sObject`, the preceding ones `sObjectPrefix`. -/
def fromClause (ctx : FromClauseContext) : FromResult :=
  let base : FromResult :=
    if jsIncludes ctx.identifierImage dotChar then
      let segs := jsSplit ctx.identifierImage dotChar
      { sObject := segs.getLastD "", sObjectPrefix := some segs.dropLast }
    else
      { sObject := ctx.identifierImage }
  match ctx.aliasImage with
  | some a => { base with aliasV := some a }
  | none => base

/-- JS truthiness of an optional string (`if (alias)`,
`if (!!output.sObjectAlias)`): absent and empty are falsy. -/
def jsTruthyStr : Option String → Bool
  | some s => s != ""
  | none => false

/-- The alias pass of `SOQLVisitor.selectStatement` on one field: when the
first relationship segment equals the alias it is removed (once) and stored
as `objectPrefix`; a field whose `relationships` ends up empty is rewritten
to a plain `Field`. -/
def resolveAliasField (a : String) (f : FieldNode) : FieldNode :=
  let f1 :=
    match f.relationships with
    | some (r0 :: rest) =>
        if r0 = a then { f with relationships := some rest, objectPrefix := some a } else f
    | _ => f
  match f1.relationships with
  | some [] => { f1 with relationships := none, type := "Field" }
  | _ => f1

/-- The output of `SOQLVisitor.selectStatement`: a `Query` or `Subquery`
(the sObject-related keys the claims inspect; clauses the claims do not
touch are omitted). -/
structure QueryNode where
  fields : List FieldNode := []
  sObject : Option String := none
  relationshipName : Option String := none
  sObjectAlias : Option String := none
  sObjectPrefix : Option (List String) := none
deriving Repr, DecidableEq

/-- `SOQLVisitor.selectStatement`, restricted to the projection/FROM/alias
part the claims are about.  `isSubquery` stands for
`isSubqueryFromFlag(output, isSubquery)` (the `utils` module is not among
the repository's files; per the spec the builder is invoked with
`isSubquery = true` exactly for subquery projections).  Note the
non-subquery branch destructures only `sObject` and `alias` from the FROM
clause result: `sObjectPrefix` is dropped there. -/
def selectStatement (isSubquery : Bool) (fields : List FieldNode)
    (fromCtx : FromClauseContext) : QueryNode :=
  let fr := fromClause fromCtx
  let q0 : QueryNode :=
    if isSubquery then
      let q : QueryNode := { fields := fields, relationshipName := some fr.sObject }
      let q := if jsTruthyStr fr.aliasV then { q with sObjectAlias := fr.aliasV } else q
      if fr.sObjectPrefix.isSome then { q with sObjectPrefix := fr.sObjectPrefix } else q
    else
      let q : QueryNode := { fields := fields, sObject := some fr.sObject }
      if jsTruthyStr fr.aliasV then { q with sObjectAlias := fr.aliasV } else q
  if jsTruthyStr q0.sObjectAlias then
    { q0 with fields := q0.fields.map (resolveAliasField (q0.sObjectAlias.getD "")) }
  else
    q0

/-! ## ORDER BY -/

/-- One `OrderByClause` value. -/
structure OrderByClauseV where
  field : Option String := none
  fn : Option LocFn := none
  order : Option String := none
  nulls : Option String := none
deriving Repr, DecidableEq

/-- `OrderByLocationExpressionContext`. -/
structure OrderByLocationExpressionContext where
  locationFunctionCtx : LocationFunctionContext
  order : Option String := none
  nulls : Option String := none
deriving Repr, DecidableEq

/-- `SOQLVisitor.orderByLocationExpression`: the DISTANCE call is visited
with `includeType: false`. -/
def orderByLocationExpression (ctx : OrderByLocationExpressionContext) : OrderByClauseV :=
  { fn := some (locationFunction ctx.locationFunctionCtx false)
    order := ctx.order
    nulls := ctx.nulls }

/-- One `orderByExpressionOrFn` criterion context: a plain field criterion
(`orderByExpression`) or a DISTANCE criterion. -/
inductive OrderByItemCtx where
  | expr (fieldImage : String) (order : Option String) (nulls : Option String)
  | locExpr (c : OrderByLocationExpressionContext)
deriving Repr, DecidableEq

/-- Visit one ORDER BY criterion (`orderByExpression` /
`orderByLocationExpression`). -/
def visitOrderByItem : OrderByItemCtx → OrderByClauseV
  | .expr f o n => { field := some f, order := o, nulls := n }
  | .locExpr c => orderByLocationExpression c

/-- `orderBy` attribute value: one clause or a sequence. -/
inductive OrderByResult where
  | single (c : OrderByClauseV)
  | multiple (cs : List OrderByClauseV)
deriving Repr, DecidableEq

/-- `SOQLVisitor.orderByClause`: one criterion collapses to a single
`OrderByClause` (chevrotain's `visit` on an array visits its first
element); otherwise each criterion is visited in order. -/
def orderByClause (items : List OrderByItemCtx) : OrderByResult :=
  match items with
  | [x] => .single (visitOrderByItem x)
  | xs => .multiple (xs.map visitOrderByItem)

/-! ## Facade of the visitor module (`parseQuery` / `isQueryValid`) -/

/-- The select-statement CST fed to `visitor.visit`, restricted to the
parts embedded here (identifier projection items and the FROM clause). -/
structure SelectStatementContext where
  selectImages : List String
  fromCtx : FromClauseContext
deriving Repr, DecidableEq

/-- `visitor.visit` on a top-level select statement. -/
def visitQuery (c : SelectStatementContext) : QueryNode :=
  selectStatement false (c.selectImages.map selectClauseField) c.fromCtx

/-- `parseQuery` of the visitor module: `visitor.visit(parse(soql, options))`.
`parseFn` stands for `parse` of the `./parser` module (not among the
repository's files); modelled from the spec, it either throws (syntax
errors with `continueIfErrors = false`) or returns the CST. -/
def parseQuery (parseFn : String → Except String SelectStatementContext)
    (soql : String) : Except String QueryNode :=
  (parseFn soql).map visitQuery

/-- `isQueryValid`: run `parse` inside try/catch and report a boolean. -/
def isQueryValid (parseFn : String → Except String SelectStatementContext)
    (soql : String) : Bool :=
  match parseFn soql with
  | .ok _ => true
  | .error _ => false

/-- "Does not raise": the call produced a value, not an exception. -/
def exceptOk {ε α : Type} : Except ε α → Bool
  | .ok _ => true
  | .error _ => false

/-! ## Concrete inputs used by witnesses and counterexamples -/

/-- A condition context `lhs = NAME:N` with the given date-N keyword image
and variable image. -/
def dateNConditionCtx (nameImage varImage : String) : ExpressionContext :=
  let dctx : DateNLiteralContext :=
    { dateNLiteralTok := { image := nameImage, tokenTypeName := nameImage }
      variableTok := { image := varImage, tokenTypeName := "UNSIGNED_INTEGER" } }
  { lhs := .token "CreatedDate"
    operatorCtx := { operator := "=", rhs := { dateNLiteralCtx := some dctx } } }

/-- `atomicExpression` on an array-literal right-hand side. -/
def atomicArray (items : List ArrayElem) : AtomicResult :=
  atomicExpression { arrayExpressionCtx := some items }

/-- Array literal `(1, -1)`: both elements classify as INTEGER but carry
different token types. -/
def c5Items : List ArrayElem :=
  [.token { image := "1", tokenTypeName := "UNSIGNED_INTEGER" },
   .token { image := "-1", tokenTypeName := "SIGNED_INTEGER" }]

/-- Array literal `(abc, LAST_N_DAYS:5)`. -/
def c5WitnessItems : List ArrayElem :=
  [.token { image := "abc", tokenTypeName := "StringIdentifier" },
   .dateN { dateNLiteralTok := { image := "LAST_N_DAYS", tokenTypeName := "LAST_N_DAYS" }
            variableTok := { image := "5", tokenTypeName := "UNSIGNED_INTEGER" } }]

/-- `DISTANCE(Loc, Pt, km)`. -/
def c7Ctx : LocationFunctionContext :=
  { location1 := "Loc", location2 := .inl "Pt", unit := "km" }

/-- First condition of the C8 witness clause: two opening parentheses. -/
def c8CondA : ConditionExpressionContext :=
  { expr := { lhs := .token "A"
              operatorCtx := { operator := "=", rhs := { NULL := some { image := "NULL", tokenTypeName := "NULL" } } }
              lParen := some 2 } }

/-- Second condition of the C8 witness clause: two closing parentheses. -/
def c8CondB : ConditionExpressionContext :=
  { logicalOperator := some "AND"
    expr := { lhs := .token "B"
              operatorCtx := { operator := "=", rhs := { NULL := some { image := "NULL", tokenTypeName := "NULL" } } }
              rParen := some 2 } }

end Soql

/-! ## The ANTLR facade `src/src/app/SoqlParser.ts` -/

namespace SoqlParserTs

/-- A JS value stored in a config field: `undefined`, a boolean, or any
non-boolean value. -/
inductive JsVal where
  | undef
  | bool (b : Bool)
  | other
deriving Repr, DecidableEq

/-- lodash `_.isBoolean`. -/
def isBoolean : JsVal → Bool
  | .bool _ => true
  | _ => false

/-- `SoqlQueryConfig` with each field as the caller may have left it. -/
structure SoqlQueryConfig where
  continueIfErrors : JsVal := .undef
  logging : JsVal := .undef
  includeSubqueryAsField : JsVal := .undef
deriving Repr, DecidableEq

/-- `configureDefaults`: each field keeps its value when it is a boolean and
is overwritten with the default (`false`, `false`, `true`) otherwise.  In
the source this mutates the caller's object in place. -/
def configureDefaults (config : SoqlQueryConfig) : SoqlQueryConfig :=
  { continueIfErrors := if isBoolean config.continueIfErrors then config.continueIfErrors else .bool false
    logging := if isBoolean config.logging then config.logging else .bool false
    includeSubqueryAsField := if isBoolean config.includeSubqueryAsField then config.includeSubqueryAsField else .bool true }

/-- The state of the caller's `config` object after
`parseQuery(soql, config)` returns: `parseQuery` calls
`configureDefaults(config)` first and only reads `config` afterwards. -/
def parseQueryConfigAfter (_soql : String) (config : SoqlQueryConfig) : SoqlQueryConfig :=
  configureDefaults config

end SoqlParserTs

/-! # Theorems for the claims -/

open Soql

/-- C2: `isQueryValid(q)` is true exactly when `parseQuery(q)` (with
`continueIfErrors = false`) does not raise.  `parse` is the abstracted
lexer/parser front end shared by both; `isQueryValid` is a total boolean
function, and the builder, a total function of the CST, cannot make
`parseQuery` raise after `parse` succeeded. -/
theorem C2_isQueryValid_iff
    (parseFn : String → Except String SelectStatementContext) (soql : String) :
    isQueryValid parseFn soql = true ↔ exceptOk (parseQuery parseFn soql) = true := by
  unfold isQueryValid parseQuery exceptOk
  cases parseFn soql <;> simp [Except.map]

/-- C7 counterexample: a DISTANCE criterion in ORDER BY is built with
`includeType: false`, so the resulting `FieldFunctionExpression` has no
`isAggregateFn` key — refuting "isAggregateFn = true in whatever context". -/
theorem C7_counterexample :
    (orderByLocationExpression { locationFunctionCtx := c7Ctx }).fn
        = some (locationFunction c7Ctx false)
    ∧ (locationFunction c7Ctx false).functionName = "DISTANCE"
    ∧ (locationFunction c7Ctx false).isAggregateFn ≠ some true := by
  refine ⟨rfl, rfl, ?_⟩
  decide

/-- C7 (amended): every DISTANCE invocation builds `functionName =
"DISTANCE"` with the three-element parameter list `[field,
nested-GEOLOCATION-or-field, unit]`; `isAggregateFn = true` is attached
only in projection context (`includeType = true`) and omitted in ORDER BY
and condition left-hand-side context (`includeType = false`). -/
theorem C7_distance_shape (ctx : LocationFunctionContext) (includeType : Bool) :
    (locationFunction ctx includeType).functionName = "DISTANCE"
    ∧ (locationFunction ctx includeType).parameters
        = [.str ctx.location1, locationParam2 ctx includeType, .str ctx.unit]
    ∧ (locationFunction ctx includeType).isAggregateFn
        = (if includeType then some true else none)
    ∧ (∀ o n, (orderByLocationExpression { locationFunctionCtx := ctx, order := o, nulls := n }).fn
        = some (locationFunction ctx false)) :=
  ⟨rfl, rfl, rfl, fun _ _ => rfl⟩

/-- C9: `orderByClause` returns a single `OrderByClause` for exactly one
criterion and the ordered list of per-criterion clauses otherwise. -/
theorem C9_orderBy_collapse :
    (∀ x : OrderByItemCtx, orderByClause [x] = .single (visitOrderByItem x))
    ∧ (∀ (x y : OrderByItemCtx) (rest : List OrderByItemCtx),
        orderByClause (x :: y :: rest) = .multiple ((x :: y :: rest).map visitOrderByItem)) :=
  ⟨fun _ => rfl, fun _ _ _ => rfl⟩

/-- C10: after `parseQuery(soql, config)` returns, the caller's config
object has all three options set to booleans: a boolean field is kept, a
missing or non-boolean field is overwritten with the default (`false`,
`false`, `true`). -/
theorem C10_config_defaults (soql : String) (config : SoqlParserTs.SoqlQueryConfig) :
    SoqlParserTs.isBoolean (SoqlParserTs.parseQueryConfigAfter soql config).continueIfErrors = true
    ∧ SoqlParserTs.isBoolean (SoqlParserTs.parseQueryConfigAfter soql config).logging = true
    ∧ SoqlParserTs.isBoolean (SoqlParserTs.parseQueryConfigAfter soql config).includeSubqueryAsField = true
    ∧ (SoqlParserTs.parseQueryConfigAfter soql config).continueIfErrors
        = (if SoqlParserTs.isBoolean config.continueIfErrors then config.continueIfErrors
           else .bool false)
    ∧ (SoqlParserTs.parseQueryConfigAfter soql config).logging
        = (if SoqlParserTs.isBoolean config.logging then config.logging else .bool false)
    ∧ (SoqlParserTs.parseQueryConfigAfter soql config).includeSubqueryAsField
        = (if SoqlParserTs.isBoolean config.includeSubqueryAsField then config.includeSubqueryAsField
           else .bool true) := by
  obtain ⟨c, l, i⟩ := config
  refine ⟨?_, ?_, ?_, rfl, rfl, rfl⟩ <;>
    first
      | (cases c <;> rfl)
      | (cases l <;> rfl)
      | (cases i <;> rfl)

/-- C6: on every grammar-accepted atomic right-hand side (the context
carries at least one alternative), `atomicExpression` assigns a defined
`literalType` — never `undefined`; by the type of `AtomicResult` that value
is a `LiteralType` tag from the enumeration, the `SUBQUERY` marker, or a
sequence of tags. -/
theorem C6_literalType_total (ctx : AtomicExpressionContext)
    (h : hasAlternative ctx = true) :
    (atomicExpression ctx).literalType.isSome = true := by
  obtain ⟨a1, a2, a3, a4, a5, a6, a7, a8, a9, a10, a11, a12, a13, a14, a15, a16, a17, a18⟩ := ctx
  cases a1
  case some => rfl
  case none =>
  cases a2
  case some => rfl
  case none =>
  cases a3
  case some => rfl
  case none =>
  cases a4
  case some => rfl
  case none =>
  cases a5
  case some => rfl
  case none =>
  cases a6
  case some => rfl
  case none =>
  cases a7
  case some => rfl
  case none =>
  cases a8
  case some => rfl
  case none =>
  cases a9
  case some => rfl
  case none =>
  cases a10
  case some => rfl
  case none =>
  cases a11
  case some => rfl
  case none =>
  cases a12
  case some => rfl
  case none =>
  cases a13
  case some => rfl
  case none =>
  cases a14
  case some => rfl
  case none =>
  cases a15
  case some => rfl
  case none =>
  cases a16
  case some => rfl
  case none =>
  cases a17
  case some => rfl
  case none =>
  cases a18
  case some => rfl
  case none => simp [hasAlternative] at h

/-- C6 witness: a `NULL` right-hand side. -/
theorem C6_witness :
    (atomicExpression { NULL := some { image := "NULL", tokenTypeName := "NULL" } }).literalType.isSome = true :=
  C6_literalType_total _ rfl

/-- C4 counterexample: for `CreatedDate = LAST_N_DAYS:0` the built condition
has `value = "LAST_N_DAYS:0"` and `literalType = DATE_N_LITERAL`, but
`dateLiteralVariable` is absent (JS `if (dateLiteralVariable)` drops the
falsy `0`), refuting the claim's "including N = 0". -/
theorem C4_counterexample :
    (expression (dateNConditionCtx "LAST_N_DAYS" "0")).value = some (.str "LAST_N_DAYS:0")
    ∧ (expression (dateNConditionCtx "LAST_N_DAYS" "0")).literalType
        = some (.scalar .DATE_N_LITERAL)
    ∧ (expression (dateNConditionCtx "LAST_N_DAYS" "0")).dateLiteralVariable = none := by
  refine ⟨?_, ?_, ?_⟩ <;> decide

/-- C4 (amended): for a condition whose right-hand side is the single
date-N literal `NAME:N`, the built condition has `value = "NAME:N"` and
`literalType = DATE_N_LITERAL`; `dateLiteralVariable` equals `N` when
`N ≠ 0` and is absent when `N = 0`. -/
theorem C4_dateN_condition (nameImage varImage : String) (n : Nat)
    (_hname : nameImage ∈ DATE_N_LITERALS)
    (hvar : decDigitsAux varImage.data 0 = some n) :
    (expression (dateNConditionCtx nameImage varImage)).value
        = some (.str (nameImage ++ ":" ++ varImage))
    ∧ (expression (dateNConditionCtx nameImage varImage)).literalType
        = some (.scalar .DATE_N_LITERAL)
    ∧ (expression (dateNConditionCtx nameImage varImage)).dateLiteralVariable
        = (if n = 0 then none else some (.num n)) := by
  have hjs : jsNumber varImage = n := by
    unfold jsNumber
    rw [hvar]
    rfl
  refine ⟨rfl, rfl, ?_⟩
  show (if truthyDateVar (some (.num (jsNumber varImage))) then some (DateVar.num (jsNumber varImage)) else none)
      = (if n = 0 then none else some (.num n))
  rw [hjs]
  unfold truthyDateVar
  rcases Nat.eq_zero_or_pos n with hz | hp
  · subst hz
    rfl
  · have : n ≠ 0 := Nat.pos_iff_ne_zero.mp hp
    simp [this]

/-- C4 witness: `LAST_N_DAYS:7`. -/
theorem C4_witness :
    ("LAST_N_DAYS" ∈ DATE_N_LITERALS)
    ∧ (expression (dateNConditionCtx "LAST_N_DAYS" "7")).dateLiteralVariable
        = (if 7 = 0 then none else some (.num 7)) :=
  ⟨by decide, (C4_dateN_condition "LAST_N_DAYS" "7" 7 (by decide) (by decide)).2.2⟩

/-- Reduction of the non-subquery branch of `selectStatement`: the FROM
prefix is dropped, the alias (when truthy) is recorded and resolved over
the projection. -/
theorem selectStatement_false_eq (flds : List FieldNode) (fc : FromClauseContext) :
    selectStatement false flds fc =
      (if jsTruthyStr (fromClause fc).aliasV then
        { fields := flds.map (resolveAliasField (((fromClause fc).aliasV).getD ""))
          sObject := some (fromClause fc).sObject
          sObjectAlias := (fromClause fc).aliasV }
      else { fields := flds, sObject := some (fromClause fc).sObject }) := by
  unfold selectStatement
  cases htr : jsTruthyStr (fromClause fc).aliasV with
  | true => simp [htr]
  | false =>
      simp only [htr, Bool.false_eq_true, if_false]
      simp [jsTruthyStr]

/-- Reduction of the subquery branch of `selectStatement` on the keys C3
inspects: `relationshipName` and `sObjectPrefix` come straight from the
FROM clause result. -/
theorem selectStatement_true_core (flds : List FieldNode) (fc : FromClauseContext) :
    (selectStatement true flds fc).relationshipName = some (fromClause fc).sObject
    ∧ (selectStatement true flds fc).sObjectPrefix = (fromClause fc).sObjectPrefix := by
  unfold selectStatement
  cases htr : jsTruthyStr (fromClause fc).aliasV with
  | true =>
      cases hps : (fromClause fc).sObjectPrefix <;> simp [htr, hps]
  | false =>
      cases hps : (fromClause fc).sObjectPrefix <;>
        · simp only [htr, Bool.false_eq_true, if_false]
          simp [jsTruthyStr, hps]

/-- Reduction of `fromClause` on `sObject` and `sObjectPrefix` (the alias
branch touches neither). -/
theorem fromClause_core (ctx : FromClauseContext) :
    (fromClause ctx).sObject
        = (if jsIncludes ctx.identifierImage dotChar
            then (jsSplit ctx.identifierImage dotChar).getLastD ""
            else ctx.identifierImage)
    ∧ (fromClause ctx).sObjectPrefix
        = (if jsIncludes ctx.identifierImage dotChar
            then some (jsSplit ctx.identifierImage dotChar).dropLast
            else none) := by
  unfold fromClause
  cases ctx.aliasImage <;> cases hinc : jsIncludes ctx.identifierImage dotChar <;> simp [hinc]

/-- C5 counterexample: in `IN (1, -1)` both elements classify to the tag
INTEGER, yet `literalType` is the sequence `[INTEGER, INTEGER]` rather than
the scalar tag — agreement is tested on token types (`UNSIGNED_INTEGER` vs
`SIGNED_INTEGER`), not on the per-element tags as the claim states. -/
theorem C5_counterexample :
    ((arrayExpression c5Items).map (fun i => getLiteralTypeFromTokenType i.type)
        = [.INTEGER, .INTEGER])
    ∧ (atomicArray c5Items).literalType = some (.seq [.INTEGER, .INTEGER])
    ∧ (atomicArray c5Items).literalType ≠ some (.scalar .INTEGER) := by
  refine ⟨?_, ?_, ?_⟩ <;> decide

/-- C5 (amended): each array element is classified independently; when all
per-element TOKEN TYPES agree the enclosing `literalType` is the single
scalar tag of that token type, otherwise it is the sequence of per-element
tags (which may be element-wise equal, as for signed and unsigned
integers); `dateLiteralVariable` is the parallel integer-or-null sequence
(`N` at date-N positions with `N ≠ 0`, null elsewhere — a date-N element
with `N = 0` contributes null) and is attached exactly when some element is
a date-N literal with nonzero `N`. -/
theorem C5_array_classification (items : List ArrayElem) (v : ArrayExpressionWithType)
    (rest : List ArrayExpressionWithType)
    (h : arrayExpression items = v :: rest) :
    (atomicArray items).value = some (.strs ((v :: rest).map ArrayExpressionWithType.value))
    ∧ (atomicArray items).literalType =
        some (if (v :: rest).all (fun w => w.type == v.type)
          then .scalar (getLiteralTypeFromTokenType v.type)
          else .seq ((v :: rest).map (fun i => getLiteralTypeFromTokenType i.type)))
    ∧ (atomicArray items).dateLiteralVariable =
        (if ((v :: rest).map dateVarSlot).any (·.isSome)
          then some (.arr ((v :: rest).map dateVarSlot))
          else none) := by
  have hred : atomicArray items =
      { value := some (.strs ((arrayExpression items).map (·.value)))
        literalType := some (match arrayExpression items with
          | v0 :: rest0 =>
              if rest0.all (fun w => w.type == v0.type)
                then .scalar (getLiteralTypeFromTokenType v0.type)
                else .seq ((v0 :: rest0).map (fun i => getLiteralTypeFromTokenType i.type))
          | [] => .seq [])
        dateLiteralVariable :=
          if ((arrayExpression items).map dateVarSlot).any (·.isSome)
            then some (.arr ((arrayExpression items).map dateVarSlot))
            else none } := rfl
  rw [hred, h]
  refine ⟨rfl, ?_, rfl⟩
  simp [List.all_cons]

/-- C5 witness: `(abc, LAST_N_DAYS:5)` gets the parallel variable sequence
`[null, 5]`. -/
theorem C5_witness :
    (atomicArray c5WitnessItems).dateLiteralVariable = some (.arr [none, some 5]) := by
  have hmain := (C5_array_classification c5WitnessItems
      { type := "StringIdentifier", value := "abc", variableN := none }
      [{ type := "LAST_N_DAYS", value := "LAST_N_DAYS:5", variableN := some 5 }]
      (by decide)).2.2
  exact hmain.trans (by decide)

/-- C3 counterexample: for top-level `SELECT ... FROM ns.Account` the built
query has `sObject = "Account"` but NO `sObjectPrefix` (the non-subquery
branch of `selectStatement` drops it); only the subquery branch keeps it. -/
theorem C3_counterexample :
    (selectStatement false [] { identifierImage := "ns.Account" }).sObject = some "Account"
    ∧ (selectStatement false [] { identifierImage := "ns.Account" }).sObjectPrefix = none
    ∧ (selectStatement true [] { identifierImage := "ns.Account" }).sObjectPrefix = some ["ns"] := by
  refine ⟨?_, ?_, ?_⟩ <;> decide

/-- C3 (amended): for a dotted FROM target, `sObject` (top level) and
`relationshipName` (subquery) are the last dotted segment; the preceding
segments become `sObjectPrefix` only on subqueries — the top-level branch
destructures only `sObject` and `alias`, so the top-level `Query` carries
no `sObjectPrefix`. -/
theorem C3_prefix_only_on_subqueries (img : String) (al : Option String)
    (flds : List FieldNode) (h : jsIncludes img dotChar = true) :
    (selectStatement false flds { identifierImage := img, aliasImage := al }).sObject
        = some ((jsSplit img dotChar).getLastD "")
    ∧ (selectStatement false flds { identifierImage := img, aliasImage := al }).sObjectPrefix
        = none
    ∧ (selectStatement true flds { identifierImage := img, aliasImage := al }).relationshipName
        = some ((jsSplit img dotChar).getLastD "")
    ∧ (selectStatement true flds { identifierImage := img, aliasImage := al }).sObjectPrefix
        = some (jsSplit img dotChar).dropLast := by
  have hfrom := fromClause_core { identifierImage := img, aliasImage := al }
  have hfalse := selectStatement_false_eq flds { identifierImage := img, aliasImage := al }
  have htrue := selectStatement_true_core flds { identifierImage := img, aliasImage := al }
  rw [h, if_pos rfl] at hfrom
  refine ⟨?_, ?_, ?_, ?_⟩
  · rw [hfalse]
    cases htr : jsTruthyStr (fromClause { identifierImage := img, aliasImage := al }).aliasV <;>
      simp [htr, hfrom.1]
  · rw [hfalse]
    cases htr : jsTruthyStr (fromClause { identifierImage := img, aliasImage := al }).aliasV <;>
      simp [htr]
  · rw [htrue.1, hfrom.1]
  · rw [htrue.2, hfrom.2]
    simp

/-- C3 witness: `ns.Account`. -/
theorem C3_witness :
    (selectStatement true [] { identifierImage := "ns.Account" }).sObjectPrefix
        = some (jsSplit "ns.Account" dotChar).dropLast :=
  (C3_prefix_only_on_subqueries "ns.Account" none [] (by decide)).2.2.2

/-- C1 counterexample: `SELECT a.a.Name FROM Account a` — the alias pass
strips the leading alias segment only once, so the built projection still
contains a `FieldRelationship` whose first relationship segment equals the
alias `a`. -/
theorem C1_counterexample :
    (selectStatement false [selectClauseField "a.a.Name"]
        { identifierImage := "Account", aliasImage := some "a" }).sObjectAlias = some "a"
    ∧ (selectStatement false [selectClauseField "a.a.Name"]
        { identifierImage := "Account", aliasImage := some "a" }).fields.any
          (fun f => f.type == "FieldRelationship"
            && (f.relationships.getD []).head? == some "a") = true := by
  refine ⟨?_, ?_⟩ <;> decide

/-- C1 (amended): when `sObjectAlias = A`, every projected field is
post-processed by one pass that removes A as the first relationship segment
AT MOST ONCE, stores it as `objectPrefix`, and rewrites the node to `Field`
when the remaining `relationships` is empty; consequently an output field
can still be a `FieldRelationship` whose first segment equals A, and that
happens exactly when the input path began with two A segments (as in
`a.a.Name`). -/
theorem C1_alias_stripped_once (a : String) (flds : List FieldNode)
    (fc : FromClauseContext)
    (hq : (selectStatement false flds fc).sObjectAlias = some a) (f : FieldNode) :
    (selectStatement false flds fc).fields = flds.map (resolveAliasField a)
    ∧ (∀ rest, f.relationships = some (a :: rest) →
        (resolveAliasField a f).objectPrefix = some a
        ∧ (resolveAliasField a f).relationships = (if rest = [] then none else some rest)
        ∧ (resolveAliasField a f).type = (if rest = [] then "Field" else f.type))
    ∧ ((resolveAliasField a f).type = "FieldRelationship"
        ∧ ((resolveAliasField a f).relationships.getD []).head? = some a
        → ∃ pre, f.relationships = some (a :: a :: pre)) := by
  refine ⟨?_, ?_, ?_⟩
  · rw [selectStatement_false_eq] at hq ⊢
    by_cases htr : jsTruthyStr (fromClause fc).aliasV = true
    · rw [if_pos htr] at hq ⊢
      have hA : (fromClause fc).aliasV = some a := hq
      show flds.map (resolveAliasField (((fromClause fc).aliasV).getD ""))
          = flds.map (resolveAliasField a)
      rw [hA]
      rfl
    · rw [if_neg htr] at hq
      exact absurd (show (none : Option String) = some a from hq) (by simp)
  · intro rest hrel
    cases rest with
    | nil => simp [resolveAliasField, hrel]
    | cons r rs => simp [resolveAliasField, hrel]
  · rintro ⟨hty, hhd⟩
    cases hr : f.relationships with
    | none => simp [resolveAliasField, hr] at hhd
    | some l =>
        cases l with
        | nil => simp [resolveAliasField, hr] at hhd
        | cons r0 rs =>
            by_cases hra : r0 = a
            · cases rs with
              | nil =>
                  rw [hra] at hr
                  simp [resolveAliasField, hr] at hhd
              | cons r1 rs2 =>
                  rw [hra] at hr
                  have hr1 : r1 = a := by
                    simpa [resolveAliasField, hr] using hhd
                  exact ⟨rs2, by rw [hra, hr1]⟩
            · simp [resolveAliasField, hr, hra] at hhd

/-- C1 witness: stripping applies once on `a.Id` with alias `a`. -/
theorem C1_witness :
    (selectStatement false [selectClauseField "a.a.Name"]
        { identifierImage := "Account", aliasImage := some "a" }).fields
      = [selectClauseField "a.a.Name"].map (resolveAliasField "a") :=
  (C1_alias_stripped_once "a" [selectClauseField "a.a.Name"]
      { identifierImage := "Account", aliasImage := some "a" } (by decide)
      (selectClauseField "a.a.Name")).1

/-- Sum of `openParen` over a built chain equals the sum of the `L_PAREN`
counts of its condition-expression contexts. -/
theorem sumOpen_buildChain :
    ∀ (l : List ConditionExpressionContext) (c : ConditionExpressionContext),
      (buildChain c l).sumOpen = ((c :: l).map (fun x => x.expr.lParen.getD 0)).sum := by
  intro l
  induction l with
  | nil => intro c; simp [buildChain, WhereChain.sumOpen, expression]
  | cons c2 rest ih =>
      intro c
      simp [buildChain, WhereChain.sumOpen, ih c2, expression]

/-- Sum of `closeParen` over a built chain equals the sum of the `R_PAREN`
counts of its condition-expression contexts. -/
theorem sumClose_buildChain :
    ∀ (l : List ConditionExpressionContext) (c : ConditionExpressionContext),
      (buildChain c l).sumClose = ((c :: l).map (fun x => x.expr.rParen.getD 0)).sum := by
  intro l
  induction l with
  | nil => intro c; simp [buildChain, WhereChain.sumClose, expression]
  | cons c2 rest ih =>
      intro c
      simp [buildChain, WhereChain.sumClose, ih c2, expression]

/-- C8: for every grammar-accepted WHERE or HAVING clause (the grammar only
accepts clauses whose parenthesis tokens balance), the built condition
chain has equal sums of `openParen` and `closeParen` over all its nodes
(absent counts as zero): the fold preserves every condition and its
parenthesis counts. -/
theorem C8_paren_balance (l : List ConditionExpressionContext) (w : WhereChain)
    (hbal : grammarBalanced l = true)
    (hw : whereClause l = some w ∨ havingClause l = some w) :
    w.sumOpen = w.sumClose := by
  have hw' : whereClause l = some w := by
    rcases hw with h | h
    · exact h
    · exact h
  cases l with
  | nil => simp [whereClause] at hw'
  | cons c rest =>
      simp only [whereClause, Option.some.injEq] at hw'
      subst hw'
      rw [sumOpen_buildChain rest c, sumClose_buildChain rest c]
      unfold grammarBalanced at hbal
      simpa using hbal

/-- C8 witness: `(( A = NULL AND B = NULL ))` shaped counts. -/
theorem C8_witness :
    grammarBalanced [c8CondA, c8CondB] = true
    ∧ (buildChain c8CondA [c8CondB]).sumOpen = (buildChain c8CondA [c8CondB]).sumClose :=
  ⟨by decide,
   C8_paren_balance [c8CondA, c8CondB] (buildChain c8CondA [c8CondB]) (by decide) (Or.inl rfl)⟩
